import Mathlib

/-!
# Verification of the Playtune synthesizer core (synth_Playtune.cpp / synth_Playtune.h)

Shallow embedding of the score sequencer, tone generators, envelope generator
and mixer of `AudioSynthPlaytune`.  Machine integers are modelled as `Nat`/`Int`
with explicit masks where overflow matters.  C truncating division is
`Int.tdiv` (rounds toward zero; division by zero yields 0, matching ARM
Cortex-M `SDIV` on the target), arithmetic right shift on signed values is
floor division (`Int.fdiv`), and unsigned C arithmetic is `Nat` with explicit
`%`/`&&&`.

Compile-time configuration (synth_Playtune.h): MAX_TGENS=16, ASSUME_VOLUME=0,
DO_PERCUSSION=1, BOOST_PERCUSSION=0, DO_ENVELOPE=1, DYNAMIC_VOLUME=0.
The Teensy audio runtime's AUDIO_SAMPLE_RATE is the float 44117.64706f.
-/

namespace Playtune

/-- `INT_MAX` as defined in synth_Playtune.cpp. -/
def INT_MAX : Int := 0x7FFFFFFF

/-- Sign-extended low 16 bits of an integer: the effect of C's conversion of a
wider integer to `int16_t` (modular, as on gcc/ARM) and of taking
`(int16_t)(b & 0xFFFF)`. -/
def toInt16 (x : Int) : Int :=
  let r := Int.emod x 65536
  if 32768 ≤ r then r - 65536 else r

/-- `signed_multiply_32x16b` from the Teensy audio library's utility/dspinst.h:
`((int64_t)a * (int16_t)(b & 0xFFFF)) >> 16` (SMULWB).  The shift is an
arithmetic right shift, i.e. floor division by 2^16. -/
def smul32x16 (a b : Int) : Int := Int.fdiv (a * toInt16 b) 65536

/-- Arithmetic right shift by 16 of a signed value (C `>> 16` on int32). -/
def sar16 (x : Int) : Int := Int.fdiv x 65536

/-- Modelled from the spec: the saturating ("clipping") conversion to the
signed 16-bit output range that the spec (and the source comment at the
output assignment) describe:  "convert to the output's sample range,
saturating (clipping) rather than wrapping on overflow". -/
def clamp16 (x : Int) : Int :=
  if x < -32768 then -32768 else if 32767 < x then 32767 else x

/-- The envelope state machine's states (`env_state_t` in synth_Playtune.h). -/
inductive EnvState where
  | idle | delay | attack | hold | decay | sustain | release
  deriving DecidableEq, Repr

/-- One entry of the `instrument_waveforms` catalog (`instrument_waveform_t`):
a 256-entry single-cycle waveform table plus DAHDSR envelope sample counts and
the sustain level as a fraction times 2^16. -/
structure Instrument where
  waveforms : Nat → Int
  delay : Int
  attack : Int
  hold : Int
  decay : Int
  rel : Int          -- the `release` field of instrument_waveform_t
  sustain_level : Int

/-- The state of one tone generator (`struct tone_gen_t`).  `tone_phase` and
`tone_incr` are nonnegative int32 values, kept as `Nat`; the phase is always
masked into [0, 2^31). -/
structure ToneGen where
  tone_phase : Nat
  tone_incr : Nat
  volume_frac : Int
  drum_ending_sample_index : Nat
  instrument_index : Nat
  playing : Bool
  percussion : Bool
  env_state : EnvState
  env_mult : Int
  env_incr : Int
  env_count : Int
  waveform : Nat → Int   -- contents of the table `waveform_array` points at

/-- Read-only data the engine consults that lives outside the two source
files under verification: the instrument catalog (its waveform contents are
in synth_Playtune_waves.c; its envelope constants are user-editable data),
the percussion waveform tables and their sizes (synth_Playtune_waves.c), the
per-drum phase increment (computed in C by a float division
`freq * 0x20000 / AUDIO_SAMPLE_RATE`, modelled as data since no claim depends
on its exact value), and the score bytestream itself (a byte at each offset). -/
structure Env where
  instruments : Nat → Instrument
  drum_waveform : Nat → Nat → Int
  drum_waveform_size : Nat → Nat
  drum_tone_incr : Nat → Nat
  score : Nat → Nat

/-- The engine state: the fields of class `AudioSynthPlaytune`, plus the
file-static xorshift `seed`.  `score_start`/`score_cursor` are byte offsets
into `Env.score` (the C code stores pointers into the stream). -/
structure PlaytuneState where
  tune_playing : Bool
  num_tgens_used : Nat
  volume_present : Bool
  score_start : Nat
  score_cursor : Nat
  scorewait_samples : Nat
  amplitude_fraction : Int
  tone_gen : Nat → ToneGen
  seed : Nat

/-- `mixer_amplitude_fractions[0..16]`: fraction (times 2^16) to attenuate
each generator by, indexed by the number of generators in use. -/
def mixer_amplitude_fractions (n : Nat) : Int :=
  [65536, 65536, 39321, 32768, 26214, 19660, 16384, 15073, 13107,
   11796, 10485, 9830, 9175, 8519, 7864, 7208, 6553].getD n 0

/-- `freq4096`: well-tempered MIDI note frequencies times 4096, notes 21..108. -/
def freq4096 : List Nat :=
  [112640, 119338, 126434, 133952, 141918, 150356, 159297,
   168769, 178805, 189437, 200702, 212636, 225280, 238676, 252868,
   267905, 283835, 300713, 318594, 337539, 357610, 378874, 401403,
   425272, 450560, 477352, 505737, 535809, 567670, 601425, 637188,
   675077, 715219, 757749, 802807, 850544, 901120, 954703, 1011473,
   1071618, 1135340, 1202851, 1274376, 1350154, 1430439, 1515497,
   1605613, 1701088, 1802240, 1909407, 2022946, 2143237, 2270680,
   2405702, 2548752, 2700309, 2860878, 3030994, 3211227, 3402176,
   3604480, 3818814, 4045892, 4286473, 4541360, 4811404, 5097505,
   5400618, 5721755, 6061989, 6422453, 6804352, 7208960, 7637627,
   8091784, 8572947, 9082720, 9622807, 10195009, 10801236, 11443511,
   12123977, 12844906, 13608704, 14417920, 15275254, 16183568,
   17145893].map id

/-- `instrument_patch_map[128]`: MIDI patch number to instrument index
(I_AGUITAR=0, I_SAX=1, I_BIRDS=2, I_CELLO=3, I_CLARINET=4, I_CLAVINET=5,
I_DBASS=6, I_EBASS=7, I_EGUITAR=8, I_ORGAN=9, I_EPIANO=10, I_FLUTE=11,
I_OBOE=12, I_PIANO=13, I_VIOLIN=14). -/
def instrument_patch_map : List Nat :=
  [6, 6, 7, 6, 7, 7, 7, 7,
   5, 5, 5, 5, 5, 5, 5, 5,
   9, 9, 9, 9, 9, 9, 9, 9,
   0, 8, 8, 8, 8, 8, 8, 0,
   6, 7, 7, 6, 6, 6, 7, 7,
   14, 14, 3, 3, 14, 14, 14, 14,
   14, 14, 14, 14, 14, 14, 14, 14,
   6, 6, 6, 6, 6, 6, 6, 6,
   1, 1, 1, 12, 12, 1, 1, 12,
   11, 11, 11, 11, 11, 11, 11, 11,
   8, 8, 8, 8, 8, 8, 8, 8,
   14, 14, 14, 14, 14, 14, 14, 14,
   2, 2, 2, 2, 2, 2, 2, 2,
   9, 9, 9, 9, 9, 9, 9, 9,
   7, 7, 7, 7, 7, 7, 7, 7,
   2, 2, 2, 2, 2, 2, 2, 2]

/-- `drum_patch_map[128]`: MIDI percussion note to drum index
(D_BASS=0, D_SNARE=1, D_TOM=2, D_CYMBAL=3, D_BONGO=4, D_BELL=5). -/
def drum_patch_map : List Nat :=
  [0, 1, 2, 3, 4, 5, 0, 0, 0, 0, 0, 0, 0, 0, 0, 0,
   0, 0, 0, 0, 0, 0, 0, 0, 0, 0, 0, 0, 0, 0, 0, 0,
   0, 0, 0, 0, 0, 1, 1, 1, 2, 3, 2, 3, 2, 3, 2, 2,
   3, 2, 3, 3, 5, 1, 3, 5, 3, 3, 3, 4, 4, 4, 4, 4,
   2, 2, 5, 5, 3, 3, 5, 5, 4, 4, 4, 4, 4, 2, 2, 5,
   5, 0, 0, 0, 0, 0, 0, 0, 0, 0, 0, 0, 0, 0, 0, 0,
   0, 0, 0, 0, 0, 0, 0, 0, 0, 0, 0, 0, 0, 0, 0, 0,
   0, 0, 0, 0, 0, 0, 0, 0, 0, 0, 0, 0, 0, 0, 0, 0]

/-- The envelope constants of the shipped `instrument_waveforms` catalog:
delay = ms2cnt(0) = 0, attack = ms2cnt(10) = 441, hold = ms2cnt(2) = 88,
decay = ms2cnt(30) = 1323, release = ms2cnt(30) = 1323 (the piano, index 13,
has release = ms2cnt(60) = 2647), sustain_level = lv2fr(0.60) = 39321, where
ms2cnt(ms) = (int32_t)(ms * 44117.64706 / 1000) and lv2fr(x) = (int32_t)(x * 65536.0). -/
def default_instruments (wave : Nat → Nat → Int) (i : Nat) : Instrument :=
  { waveforms := wave i
    delay := 0, attack := 441, hold := 88, decay := 1323
    rel := if i = 13 then 2647 else 1323
    sustain_level := 39321 }

/-- `random_byte()`: one step of the 8-bit Marsaglia xorshift generator.
Each C statement truncates the shifted value to a byte before xoring. -/
def random_byte_step (s : Nat) : Nat :=
  let s1 := s ^^^ ((s <<< 7) % 256)
  let s2 := s1 ^^^ (s1 >>> 5)
  s2 ^^^ ((s2 <<< 3) % 256)

/-- `tune_playnote(tgen, note, vol)`.  `random_byte()` advances the engine's
seed and returns the new value.  With BOOST_PERCUSSION=0 the percussion
volume is not doubled. -/
def tune_playnote (env : Env) (tgen note vol : Nat) (st : PlaytuneState) : PlaytuneState :=
  if tgen < 16 then
    let tg := st.tone_gen tgen
    if 128 ≤ note then  -- percussion instrument
      let drum_enum := drum_patch_map.getD (note - 128) 0
      let tg' := { tg with
        waveform := env.drum_waveform drum_enum
        tone_incr := env.drum_tone_incr drum_enum
        tone_phase := 0
        drum_ending_sample_index := env.drum_waveform_size drum_enum - 1
        percussion := true
        env_mult := 0x10000
        env_incr := 0
        volume_frac := ((Int.ofNat (vol &&& 0x7f)) + 1) * 512
        playing := true }
      { st with tone_gen := Function.update st.tone_gen tgen tg' }
    else  -- regular instrument
      let note := if note < 21 then 21 else if 108 < note then 108 else note
      let inst := env.instruments tg.instrument_index
      let r := random_byte_step st.seed
      let tg' := { tg with
        waveform := inst.waveforms
        env_mult := 0
        env_count := inst.delay
        env_state := EnvState.delay
        env_incr := 0
        -- (uint64_t)AUDIO_SAMPLE_RATE truncates the float 44117.64706f to 44117
        tone_incr := freq4096.getD (note - 21) 0 * 0x80000 / 44117
        tone_phase := r <<< 23
        percussion := false
        volume_frac := ((Int.ofNat (vol &&& 0x7f)) + 1) * 512
        playing := true }
      { st with tone_gen := Function.update st.tone_gen tgen tg', seed := r }
  else st

/-- The per-voice effect of `tune_stopnote` on a tone generator: a melodic
playing voice enters the release ramp (and stays playing); a percussion
playing voice is deactivated immediately; an idle voice is untouched.
`env_incr = -env_mult / env_count` is C truncating division. -/
def stopnote_tg (env : Env) (tg : ToneGen) : ToneGen :=
  if tg.playing then
    if tg.percussion then { tg with playing := false }
    else
      let inst := env.instruments tg.instrument_index
      { tg with
        env_state := EnvState.release
        env_count := inst.rel
        env_mult := inst.sustain_level
        env_incr := Int.tdiv (-inst.sustain_level) inst.rel }
  else tg

/-- `tune_stopnote(tgen)`. -/
def tune_stopnote (env : Env) (tgen : Nat) (st : PlaytuneState) : PlaytuneState :=
  if tgen < 16 then
    { st with tone_gen := Function.update st.tone_gen tgen (stopnote_tg env (st.tone_gen tgen)) }
  else st

/-- `tune_stopscore()`: stop every generator, then mark playback inactive. -/
def tune_stopscore (env : Env) (st : PlaytuneState) : PlaytuneState :=
  let st := (List.range 16).foldl (fun s t => tune_stopnote env t s) st
  { st with tune_playing := false }

/-- `stop()`. -/
def stop (env : Env) (st : PlaytuneState) : PlaytuneState := tune_stopscore env st

/-- `isPlaying()`. -/
def isPlaying (st : PlaytuneState) : Bool := st.tune_playing

/-- `tune_setinstrument(tgen, instrument_index)`. -/
def tune_setinstrument (tgen idx : Nat) (st : PlaytuneState) : PlaytuneState :=
  let tg := { st.tone_gen tgen with instrument_index := idx }
  { st with tone_gen := Function.update st.tone_gen tgen tg }

/-- The `while (tg->env_count == 0)` cascade in `update()`: move to the next
envelope state until one with a nonzero count is reached.  The C loop always
exits within a bounded number of iterations because `ENV_IDLE` and
`ENV_SUSTAIN` set the count to `INT_MAX`; the fuel (called with 8) therefore
never runs out on type-correct states.  In the `ENV_DELAY` case with
`attack = 0`, `0x10000 / 0` is modelled as 0 (ARM `SDIV` by zero on the
target yields 0); the value is overwritten by the next cascade iteration. -/
def envCascade (inst : Instrument) : Nat → ToneGen → ToneGen
  | 0, tg => tg
  | fuel + 1, tg =>
    if tg.env_count = 0 then
      let tg' :=
        match tg.env_state with
        | EnvState.idle => { tg with env_count := INT_MAX }
        | EnvState.delay =>
            { tg with env_state := EnvState.attack, env_count := inst.attack,
                      env_incr := Int.tdiv 0x10000 inst.attack }
        | EnvState.attack =>
            { tg with env_state := EnvState.hold, env_count := inst.hold,
                      env_mult := 0x10000, env_incr := 0 }
        | EnvState.hold =>
            { tg with env_state := EnvState.decay, env_count := inst.decay,
                      env_mult := 0x10000,
                      env_incr := Int.tdiv (inst.sustain_level - 0x10000) inst.decay }
        | EnvState.decay =>
            { tg with env_state := EnvState.sustain, env_count := INT_MAX,
                      env_mult := inst.sustain_level, env_incr := 0 }
        | EnvState.sustain => { tg with env_count := INT_MAX }
        | EnvState.release =>
            { tg with env_state := EnvState.idle, playing := false }
      envCascade inst fuel tg'
    else tg

/-- The net per-sample envelope state change for a playing melodic voice:
cascade, then `--env_count`, and (after the sample value is produced with the
post-cascade multiplier) `env_mult += env_incr`. -/
def envStep (inst : Instrument) (tg : ToneGen) : ToneGen :=
  let t := envCascade inst 8 tg
  { t with env_count := t.env_count - 1, env_mult := t.env_mult + t.env_incr }

/-- Melodic waveform index: `tone_phase >> 23`, 8 bits of index. -/
def mel_index1 (phase : Nat) : Nat := phase >>> 23

/-- Melodic second interpolation index: `(index1 + 1) & 0xff`. -/
def mel_index2 (index1 : Nat) : Nat := (index1 + 1) &&& 0xff

/-- Percussion waveform index: `tone_phase >> 17`, 14 bits of index. -/
def perc_index1 (phase : Nat) : Nat := phase >>> 17

/-- `tone_phase = (tone_phase + tone_incr) & 0x7fffffff`. -/
def advance_phase (phase incr : Nat) : Nat := (phase + incr) &&& 0x7fffffff

/-- One tone generator's work inside the per-sample loop of `update()`:
waveform indexing, envelope cascade (melodic), linear interpolation, phase
advance, envelope scaling and mixer scaling.  Returns the updated generator
state and this generator's contribution to the mixed `level`. -/
def tg_sample (inst : Instrument) (amplitude_fraction : Int) (tg : ToneGen) :
    ToneGen × Int :=
  if tg.playing then
    if tg.percussion then
      let index1 := perc_index1 tg.tone_phase
      let index2 := index1 + 1
      let playing' := if tg.drum_ending_sample_index ≤ index2 then false else tg.playing
      let scale := (tg.tone_phase >>> 1) &&& 0xFFFF
      let val1 := tg.waveform index1 * (0xFFFF - Int.ofNat scale)
      let val2 := tg.waveform index2 * Int.ofNat scale
      let our_level := sar16 (val1 + val2)
      let lvl := smul32x16 tg.env_mult our_level
      let tg' := { tg with playing := playing',
                           tone_phase := advance_phase tg.tone_phase tg.tone_incr,
                           env_mult := tg.env_mult + tg.env_incr }
      (tg', smul32x16 tg.volume_frac (smul32x16 amplitude_fraction lvl))
    else
      let index1 := mel_index1 tg.tone_phase
      let index2 := mel_index2 index1
      let scale := (tg.tone_phase >>> 7) &&& 0xFFFF
      let t := envCascade inst 8 tg
      let val1 := tg.waveform index1 * (0xFFFF - Int.ofNat scale)
      let val2 := tg.waveform index2 * Int.ofNat scale
      let our_level := sar16 (val1 + val2)
      let lvl := smul32x16 t.env_mult our_level
      let tg' := { envStep inst tg with
                   tone_phase := advance_phase tg.tone_phase tg.tone_incr }
      (tg', smul32x16 tg.volume_frac (smul32x16 amplitude_fraction lvl))
  else (tg, 0)

/-- One iteration of the `while (1)` loop in `tune_stepscore`: read one
command at the cursor and execute it.  Returns the new state and `true` when
the loop breaks (a wait command, or CMD_STOP). -/
def tune_stepcmd (env : Env) (st : PlaytuneState) : PlaytuneState × Bool :=
  let cmd := env.score st.score_cursor
  let st := { st with score_cursor := st.score_cursor + 1 }
  if cmd < 0x80 then
    -- 15-bit big-endian wait in msec; (uint64_t)(AUDIO_SAMPLE_RATE + .5) = 44118
    let msec := (cmd <<< 8) ||| env.score st.score_cursor
    let st := { st with score_cursor := st.score_cursor + 1,
                        scorewait_samples := msec * 1000 * 44118 / 1000000 }
    (st, true)
  else
    let opcode := cmd &&& 0xf0
    let tgen := cmd &&& 0x0f
    if opcode = 0x80 then (tune_stopnote env tgen st, false)
    else if opcode = 0x90 then
      let note := env.score st.score_cursor
      let st := { st with score_cursor := st.score_cursor + 1 }
      let vol := if st.volume_present then env.score st.score_cursor else 127
      let st := if st.volume_present then { st with score_cursor := st.score_cursor + 1 } else st
      (tune_playnote env tgen note vol st, false)
    else if opcode = 0xc0 then
      let idx := instrument_patch_map.getD (env.score st.score_cursor) 0
      let st := { st with score_cursor := st.score_cursor + 1 }
      (tune_setinstrument tgen idx st, false)
    else if opcode = 0xe0 then
      ({ st with score_cursor := st.score_start }, false)
    else if opcode = 0xf0 then
      (stop env st, true)
    else (st, false)

/-- `tune_stepscore()`: execute commands until a wait is found or the score
stops.  The C loop can run forever (e.g. on a bare CMD_RESTART loop), so it
is modelled with fuel; out of fuel the current state is returned. -/
def tune_stepscore (env : Env) : Nat → PlaytuneState → PlaytuneState
  | 0, st => st
  | fuel + 1, st =>
    match tune_stepcmd env st with
    | (st', true) => st'
    | (st', false) => tune_stepscore env fuel st'

/-- Everything `tune_playscore` does before its call to `tune_stepscore`:
stop a running score, reset defaults, parse the optional 'Pt' header, select
the mixer attenuation, and position the cursor at the first event. -/
def tune_playscore_setup (env : Env) (st : PlaytuneState) : PlaytuneState :=
  let s0 := if st.tune_playing then stop env st else st
  let s1 := { s0 with score_start := 0, volume_present := false, num_tgens_used := 16 }
  let s2 := (List.range 16).foldl (fun s t => tune_setinstrument t 13 s) s1
  let s3 :=
    if env.score 0 = 80 ∧ env.score 1 = 116 then  -- 'P', 't'
      { s2 with volume_present := env.score 3 &&& 0x80 != 0,
                num_tgens_used := max 1 (min 16 (env.score 5)),
                score_start := s2.score_start + env.score 2 }
    else s2
  { s3 with amplitude_fraction := mixer_amplitude_fractions s3.num_tgens_used,
            score_cursor := s3.score_start }

/-- `tune_playscore(score)`. -/
def tune_playscore (env : Env) (fuel : Nat) (st : PlaytuneState) : PlaytuneState :=
  let s1 := tune_playscore_setup env st
  let s2 := tune_stepscore env fuel s1
  { s2 with tune_playing := true }

/-- `play(score, num_tgens)`: stores the caller's generator count (a byte
field, hence mod 256) and starts the score. -/
def play2 (env : Env) (fuel : Nat) (num_tgens : Nat) (st : PlaytuneState) : PlaytuneState :=
  tune_playscore env fuel { st with num_tgens_used := num_tgens % 256 }

/-- `play(score)`: delegates to `play(score, MAX_TGENS)`. -/
def play1 (env : Env) (fuel : Nat) (st : PlaytuneState) : PlaytuneState :=
  play2 env fuel 16 st

/-- One iteration of the mixing loop of `update()`: process generator `tgen`
and add its contribution to the running `level`. -/
def mix_step (env : Env) (acc : PlaytuneState × Int) (tgen : Nat) : PlaytuneState × Int :=
  let tg := acc.1.tone_gen tgen
  let r := tg_sample (env.instruments tg.instrument_index) acc.1.amplitude_fraction tg
  ({ acc.1 with tone_gen := Function.update acc.1.tone_gen tgen r.1 }, acc.2 + r.2)

/-- The tone-generator mixing loop of `update()` for one output sample:
fold `mix_step` over generators `0 .. num_tgens_used - 1`, accumulating the
signed mixer level. -/
def update_tgens (env : Env) (st : PlaytuneState) : PlaytuneState × Int :=
  (List.range st.num_tgens_used).foldl (mix_step env) (st, 0)

/-- A tone generator with all fields cleared (test fixture). -/
def tgInit : ToneGen :=
  { tone_phase := 0, tone_incr := 0, volume_frac := 0,
    drum_ending_sample_index := 0, instrument_index := 13,
    playing := false, percussion := false, env_state := EnvState.idle,
    env_mult := 0, env_incr := 0, env_count := 0, waveform := fun _ => 0 }

/-- The engine state right after construction (test fixture): the field
initializers of class `AudioSynthPlaytune` plus the xorshift seed 23. -/
def stInit : PlaytuneState :=
  { tune_playing := false, num_tgens_used := 16, volume_present := false,
    score_start := 0, score_cursor := 0, scorewait_samples := 0,
    amplitude_fraction := 0x10000, tone_gen := fun _ => tgInit, seed := 23 }

/-- An environment with all-zero external data and the shipped instrument
envelope constants (test fixture). -/
def envInit : Env :=
  { instruments := default_instruments (fun _ _ => 0),
    drum_waveform := fun _ _ => 0, drum_waveform_size := fun _ => 0,
    drum_tone_incr := fun _ => 0, score := fun _ => 0 }

/-- One sample slot of `update()`: the score-wait gate
`if (tune_playing && scorewait_samples && --scorewait_samples == 0)
tune_stepscore();` followed by the mixing loop.  The produced output sample
is `block->data[sample] = level`, a plain C `int` to `int16_t` conversion,
i.e. reduction modulo 2^16 (`toInt16`). -/
def update_sample (env : Env) (fuel : Nat) (st : PlaytuneState) : PlaytuneState × Int :=
  let st1 :=
    if st.tune_playing ∧ st.scorewait_samples ≠ 0 then
      let w := st.scorewait_samples - 1
      if w = 0 then tune_stepscore env fuel { st with scorewait_samples := 0 }
      else { st with scorewait_samples := w }
    else st
  let r := update_tgens env st1
  (r.1, toInt16 r.2)

/-! ## Concrete test fixtures -/

/-- A percussion voice struck at maximum velocity on a full-scale waveform:
the state `tune_playnote` leaves for a drum whose table holds samples at the
int16 maximum (waveform data lives in synth_Playtune_waves.c and is arbitrary
int16 data).  `tone_incr` is the snare/tom/cymbal rate 8000·0x20000/44117.6. -/
def tgLoud : ToneGen :=
  { tgInit with
    playing := true
    percussion := true
    tone_phase := 0
    tone_incr := 23768
    drum_ending_sample_index := 16383
    env_mult := 0x10000
    env_incr := 0
    volume_frac := 0x10000
    waveform := fun _ => 32767 }

/-- All 16 generators sounding `tgLoud` simultaneously, with the attenuation
for 16 configured generators. -/
def stLoud : PlaytuneState :=
  { stInit with
    tune_playing := true
    amplitude_fraction := 6553
    tone_gen := fun _ => tgLoud }

/-- A melodic voice of instrument 0 holding its sustain level. -/
def tgSus : ToneGen :=
  { tgInit with
    playing := true
    percussion := false
    instrument_index := 0
    env_state := EnvState.sustain
    env_mult := 39321
    env_incr := 0
    env_count := 100 }

/-- Playback running with one sustained melodic voice on generator 0. -/
def stOne : PlaytuneState :=
  { stInit with
    tune_playing := true
    tone_gen := Function.update stInit.tone_gen 0 tgSus }

/-- An instrument whose delay, attack, hold and decay are all zero. -/
def instD : Instrument :=
  { waveforms := fun _ => 0
    delay := 0
    attack := 0
    hold := 0
    decay := 0
    rel := 1323
    sustain_level := 39321 }

/-- A catalog consisting only of `instD`. -/
def envD : Env := { envInit with instruments := fun _ => instD }

/-- An instrument with zero delay and attack but nonzero hold. -/
def instZ : Instrument := { instD with hold := 88, decay := 1323 }

/-- A catalog consisting only of `instZ`. -/
def envZ : Env := { envInit with instruments := fun _ => instZ }

/-- The header stream `'P','t',6,0x80,0,4`. -/
def envPt : Env := { envInit with score := fun n => [80, 116, 6, 128, 0, 4].getD n 0 }

/-- A stream holding a lone CMD_RESTART byte. -/
def envRestart : Env := { envInit with score := fun n => [0xE0].getD n 0 }

/-- A stream holding a lone CMD_STOP byte. -/
def envStop : Env := { envInit with score := fun n => [0xF0].getD n 0 }

/-! ## Auxiliary notions used to state and prove the claims -/

/-- Apply a per-generator transformation to generator `t` of the state:
the common shape of the loop bodies that touch `tone_gen[t]` only. -/
def overTG (F : Nat → ToneGen → ToneGen) (s : PlaytuneState) (t : Nat) : PlaytuneState :=
  { s with tone_gen := Function.update s.tone_gen t (F t (s.tone_gen t)) }

/-- A voice that is sounding its sustain phase: playing, melodic, in
`ENV_SUSTAIN` with a nonnegative countdown.  Such a voice keeps sounding
under the per-sample update (the `ENV_SUSTAIN` cascade arm reloads the
countdown with `INT_MAX`). -/
def sustainInv (tg : ToneGen) : Prop :=
  tg.playing = true ∧ tg.percussion = false ∧
    tg.env_state = EnvState.sustain ∧ 0 ≤ tg.env_count

instance (tg : ToneGen) : Decidable (sustainInv tg) := by
  unfold sustainInv; infer_instance

/-! ## Helper lemmas -/

lemma land_mask31 (x : Nat) : x &&& 2147483647 = x % 2147483648 := by
  have h := Nat.and_pow_two_sub_one_eq_mod x 31
  norm_num at h
  exact h

lemma advance_phase_lt (p i : Nat) : advance_phase p i < 2147483648 := by
  unfold advance_phase
  rw [show (0x7fffffff : Nat) = 2147483647 from rfl, land_mask31]
  exact Nat.mod_lt _ (by norm_num)

lemma mel_index1_lt (p : Nat) (hp : p < 2147483648) : mel_index1 p < 256 := by
  unfold mel_index1
  rw [Nat.shiftRight_eq_div_pow]
  exact Nat.div_lt_of_lt_mul (by norm_num at hp ⊢; omega)

lemma mel_index2_mod (i : Nat) : mel_index2 i = (i + 1) % 256 := by
  unfold mel_index2
  have h := Nat.and_pow_two_sub_one_eq_mod (i + 1) 8
  norm_num at h
  exact h

lemma foldl_overTG_eta (F : Nat → ToneGen → ToneGen) (l : List Nat) :
    ∀ s : PlaytuneState,
      l.foldl (overTG F) s = { s with tone_gen := (l.foldl (overTG F) s).tone_gen } := by
  induction l with
  | nil => intro s; rfl
  | cons t l ih =>
    intro s
    simp only [List.foldl_cons]
    rw [ih (overTG F s t)]
    rfl

lemma foldl_overTG_apply (F : Nat → ToneGen → ToneGen) (l : List Nat) :
    l.Nodup → ∀ (s : PlaytuneState) (i : Nat),
      (l.foldl (overTG F) s).tone_gen i =
        if i ∈ l then F i (s.tone_gen i) else s.tone_gen i := by
  induction l with
  | nil => intro _ s i; simp
  | cons t l ih =>
    intro hl s i
    obtain ⟨ht, hl'⟩ := List.nodup_cons.mp hl
    simp only [List.foldl_cons]
    rw [ih hl' (overTG F s t) i]
    by_cases h : i = t
    · subst h
      have : i ∉ l := ht
      simp [this, overTG, Function.update]
    · simp [overTG, Function.update, h, List.mem_cons]

lemma stopscore_foldl_eq (env : Env) (st : PlaytuneState) :
    (List.range 16).foldl (fun s t => tune_stopnote env t s) st
      = (List.range 16).foldl (overTG (fun _ tg => stopnote_tg env tg)) st := by
  apply List.foldl_ext
  intro s t htmem
  have h : t < 16 := List.mem_range.mp htmem
  simp [tune_stopnote, overTG, h]

lemma stop_tone_gen (env : Env) (st : PlaytuneState) (i : Nat) (hi : i < 16) :
    (stop env st).tone_gen i = stopnote_tg env (st.tone_gen i) := by
  show ((List.range 16).foldl (fun s t => tune_stopnote env t s) st).tone_gen i = _
  rw [stopscore_foldl_eq, foldl_overTG_apply _ _ (List.nodup_range 16) st i]
  simp [List.mem_range, hi]

lemma stop_eta (env : Env) (st : PlaytuneState) :
    stop env st
      = { st with tune_playing := false, tone_gen := (stop env st).tone_gen } := by
  unfold stop tune_stopscore
  rw [stopscore_foldl_eq, foldl_overTG_eta]

lemma mix_foldl (env : Env) (l : List Nat) :
    l.Nodup → ∀ (st : PlaytuneState) (a : Int),
      (l.foldl (mix_step env) (st, a)).1
        = { st with tone_gen := (l.foldl (mix_step env) (st, a)).1.tone_gen }
      ∧ ∀ i, (l.foldl (mix_step env) (st, a)).1.tone_gen i =
          if i ∈ l then
            (tg_sample (env.instruments (st.tone_gen i).instrument_index)
              st.amplitude_fraction (st.tone_gen i)).1
          else st.tone_gen i := by
  induction l with
  | nil => intro _ st a; exact ⟨rfl, by simp⟩
  | cons t l ih =>
    intro hl st a
    obtain ⟨ht, hl'⟩ := List.nodup_cons.mp hl
    simp only [List.foldl_cons]
    refine ⟨(ih hl' _ _).1, fun i => ?_⟩
    rw [(ih hl' _ _).2 i]
    by_cases h : i = t
    · subst h
      have hni : i ∉ l := ht
      simp [hni, mix_step, Function.update]
    · simp [mix_step, Function.update, h, List.mem_cons]

lemma update_tgens_eta (env : Env) (st : PlaytuneState) :
    (update_tgens env st).1 = { st with tone_gen := (update_tgens env st).1.tone_gen } :=
  (mix_foldl env _ (List.nodup_range _) st 0).1

lemma update_tgens_apply (env : Env) (st : PlaytuneState) (i : Nat) :
    (update_tgens env st).1.tone_gen i =
      if i < st.num_tgens_used then
        (tg_sample (env.instruments (st.tone_gen i).instrument_index)
          st.amplitude_fraction (st.tone_gen i)).1
      else st.tone_gen i := by
  have h := (mix_foldl env _ (List.nodup_range st.num_tgens_used) st 0).2 i
  simp only [List.mem_range] at h
  exact h

lemma envCascade_of_count_ne (inst : Instrument) (tg : ToneGen)
    (h : tg.env_count ≠ 0) : envCascade inst 8 tg = tg := by
  simp [envCascade, h]

lemma envStep_of_count_ne (inst : Instrument) (tg : ToneGen) (h : tg.env_count ≠ 0) :
    envStep inst tg
      = { tg with env_count := tg.env_count - 1,
                  env_mult := tg.env_mult + tg.env_incr } := by
  unfold envStep
  rw [envCascade_of_count_ne inst tg h]

/-- During an uninterrupted release, `n` per-sample envelope updates decrement
the countdown by `n` and advance the multiplier by `n` increments. -/
lemma envStep_release_iter (inst : Instrument) :
    ∀ (n : Nat) (tg : ToneGen), tg.env_state = EnvState.release →
      (n : Int) ≤ tg.env_count →
      Nat.iterate (envStep inst) n tg
        = { tg with env_count := tg.env_count - n,
                    env_mult := tg.env_mult + n * tg.env_incr } := by
  intro n
  induction n with
  | zero => intro tg _ _; simp
  | succ n ih =>
    intro tg hs hc
    rw [Function.iterate_succ_apply]
    have hne : tg.env_count ≠ 0 := by
      intro h0
      rw [h0] at hc
      push_cast at hc
      omega
    rw [envStep_of_count_ne inst tg hne]
    have hc' : (n : Int) ≤ tg.env_count - 1 := by
      push_cast at hc
      omega
    have happ := ih ({ tg with env_count := tg.env_count - 1,
                               env_mult := tg.env_mult + tg.env_incr }) hs hc'
    rw [happ]
    congr 1
    · push_cast
      ring
    · push_cast
      ring

/-- The envelope update that runs when the release countdown has reached
zero deactivates the voice (`ENV_RELEASE` cascades to `ENV_IDLE` setting
`playing = false`). -/
lemma envStep_release_done (inst : Instrument) (tg : ToneGen)
    (hs : tg.env_state = EnvState.release) (hc : tg.env_count = 0) :
    (envStep inst tg).playing = false ∧ (envStep inst tg).env_state = EnvState.idle := by
  unfold envStep
  simp [envCascade, hs, hc, INT_MAX]

/-- For a playing melodic voice, the state part of `tg_sample` is the
envelope step plus the phase advance. -/
lemma tg_sample_fst_melodic (inst : Instrument) (a : Int) (tg : ToneGen)
    (hp : tg.playing = true) (hperc : tg.percussion = false) :
    (tg_sample inst a tg).1
      = { envStep inst tg with
          tone_phase := advance_phase tg.tone_phase tg.tone_incr } := by
  simp [tg_sample, hp, hperc]

/-- A sustained voice stays sustained (and in particular keeps playing)
through one per-sample update of its generator. -/
lemma sustainInv_tg_sample (inst : Instrument) (a : Int) (tg : ToneGen)
    (h : sustainInv tg) : sustainInv ((tg_sample inst a tg).1) := by
  obtain ⟨hp, hperc, hs, hc⟩ := h
  rw [tg_sample_fst_melodic inst a tg hp hperc]
  by_cases h0 : tg.env_count = 0
  · unfold envStep
    simp only [sustainInv]
    simp [envCascade, h0, hs, INT_MAX, hp, hperc]
  · rw [envStep_of_count_ne inst tg h0]
    refine ⟨hp, hperc, hs, ?_⟩
    simp only []
    omega

lemma tune_playnote_score_cursor (env : Env) (tgen note vol : Nat)
    (st : PlaytuneState) :
    (tune_playnote env tgen note vol st).score_cursor = st.score_cursor := by
  unfold tune_playnote
  split
  · split
    · rfl
    · rfl
  · rfl

/-- When playback is on but no wait is pending, the per-sample gate does not
step the score, and the mixing loop preserves the sequencer fields and any
sustained voice. -/
lemma update_sample_step (env : Env) (fuel : Nat) (st : PlaytuneState)
    (hp : st.tune_playing = true) (hw : st.scorewait_samples = 0) :
    (update_sample env fuel st).1.tune_playing = true
    ∧ (update_sample env fuel st).1.scorewait_samples = 0
    ∧ (update_sample env fuel st).1.score_cursor = st.score_cursor
    ∧ ∀ i, sustainInv (st.tone_gen i) →
        sustainInv ((update_sample env fuel st).1.tone_gen i) := by
  have hgate : (update_sample env fuel st).1 = (update_tgens env st).1 := by
    unfold update_sample
    simp [hw]
  have heta := update_tgens_eta env st
  refine ⟨?_, ?_, ?_, ?_⟩
  · rw [hgate, heta]
    exact hp
  · rw [hgate, heta]
    exact hw
  · rw [hgate, heta]
  · intro i hi
    rw [hgate, update_tgens_apply]
    by_cases h : i < st.num_tgens_used
    · simp only [h, if_true]
      exact sustainInv_tg_sample _ _ _ hi
    · simp only [h, if_false]
      exact hi

/-! ## The claims -/

/-- Claim C7: decoding a restart command (0xE0) at any point in the stream
resets the read cursor to the position just past the header (`score_start`)
and changes nothing else: the state is otherwise untouched (every voice
field included) and the decode loop continues. -/
theorem claim_C7 (env : Env) (st : PlaytuneState)
    (h : env.score st.score_cursor = 0xE0) :
    tune_stepcmd env st = ({ st with score_cursor := st.score_start }, false) := by
  unfold tune_stepcmd
  rw [h]
  norm_num [show (224 : Nat) &&& 240 = 224 from rfl]

/-- Witness for C7 at the concrete one-byte stream `[0xE0]`. -/
theorem claim_C7_witness :
    envRestart.score stInit.score_cursor = 0xE0 ∧
    tune_stepcmd envRestart stInit
      = ({ stInit with score_cursor := stInit.score_start }, false) :=
  ⟨by decide, claim_C7 envRestart stInit (by decide)⟩

lemma tune_stopnote_num (env : Env) (t m : Nat) (st : PlaytuneState) :
    tune_stopnote env t { st with num_tgens_used := m }
      = { tune_stopnote env t st with num_tgens_used := m } := by
  unfold tune_stopnote
  by_cases h : t < 16 <;> simp [h]

lemma tune_stopscore_num (env : Env) (m : Nat) (st : PlaytuneState) :
    tune_stopscore env { st with num_tgens_used := m }
      = { tune_stopscore env st with num_tgens_used := m } := by
  unfold tune_stopscore
  have key : ∀ (l : List Nat) (st : PlaytuneState),
      l.foldl (fun s t => tune_stopnote env t s) { st with num_tgens_used := m }
        = { l.foldl (fun s t => tune_stopnote env t s) st with num_tgens_used := m } := by
    intro l
    induction l with
    | nil => intro st; rfl
    | cons t l ih =>
      intro st
      simp only [List.foldl_cons]
      rw [tune_stopnote_num, ih]
  rw [key]

lemma tune_playscore_setup_num (env : Env) (m : Nat) (st : PlaytuneState) :
    tune_playscore_setup env { st with num_tgens_used := m }
      = tune_playscore_setup env st := by
  have hs0 :
      (if ({ st with num_tgens_used := m } : PlaytuneState).tune_playing then
          stop env { st with num_tgens_used := m }
        else { st with num_tgens_used := m })
        = { (if st.tune_playing then stop env st else st) with num_tgens_used := m } := by
    show (if st.tune_playing then stop env { st with num_tgens_used := m }
          else { st with num_tgens_used := m }) = _
    by_cases hp : st.tune_playing = true
    · rw [if_pos hp, if_pos hp]
      exact tune_stopscore_num env m st
    · rw [if_neg hp, if_neg hp]
  unfold tune_playscore_setup
  rw [hs0]

/-- Claim C10: `play(s, n)` leaves the engine in exactly the same state as
`play(s)`, for every generator-count argument `n`: `tune_playscore`
overwrites `num_tgens_used` before it is ever read, so the caller's override
has no effect. -/
theorem claim_C10 (env : Env) (fuel n : Nat) (st : PlaytuneState) :
    play2 env fuel n st = play1 env fuel st := by
  unfold play1 play2
  simp only [tune_playscore]
  rw [tune_playscore_setup_num env (n % 256) st, tune_playscore_setup_num env (16 % 256) st]

set_option maxRecDepth 4000 in
lemma rb_step_ok :
    ∀ s, s < 256 → s ≠ 0 → random_byte_step s ≠ 0 ∧ random_byte_step s < 256 := by
  decide

/-- Claim C8: the xorshift byte generator, started from its nonzero seed 23,
never yields 0 (and stays a byte); consequently every melodic note-on leaves
a strictly positive `tone_phase = random_byte() << 23`. -/
theorem claim_C8 :
    (∀ n : Nat, Nat.iterate random_byte_step n 23 ≠ 0
      ∧ Nat.iterate random_byte_step n 23 < 256)
  ∧ (∀ (env : Env) (st : PlaytuneState) (tgen note vol : Nat),
      tgen < 16 → note < 128 → st.seed ≠ 0 → st.seed < 256 →
      0 < ((tune_playnote env tgen note vol st).tone_gen tgen).tone_phase) := by
  constructor
  · intro n
    induction n with
    | zero => exact ⟨by decide, by decide⟩
    | succ n ih =>
      rw [Function.iterate_succ_apply']
      exact rb_step_ok _ ih.2 ih.1
  · intro env st tgen note vol htgen hnote hseed hlt
    have hr := (rb_step_ok st.seed hlt hseed).1
    unfold tune_playnote
    simp only [htgen, if_true, Nat.not_le.mpr hnote, if_false, Function.update_same]
    rw [Nat.shiftLeft_eq]
    exact Nat.mul_pos (Nat.pos_of_ne_zero hr) (by norm_num)

/-- Witness for C8: the 6th seed is nonzero, and a concrete melodic note-on
from the freshly constructed engine state gets a positive phase. -/
theorem claim_C8_witness :
    Nat.iterate random_byte_step 5 23 ≠ 0
    ∧ (stInit.seed ≠ 0 ∧ stInit.seed < 256)
    ∧ 0 < ((tune_playnote envInit 0 60 127 stInit).tone_gen 0).tone_phase :=
  ⟨(claim_C8.1 5).1, ⟨by decide, by decide⟩,
    claim_C8.2 envInit stInit 0 60 127 (by decide) (by decide) (by decide) (by decide)⟩

/-- Counterexample to claim C1 as stated: stopping a score with a playing
melodic voice marks playback inactive but does NOT deactivate the voice —
`tune_stopnote` puts a melodic voice into its release ramp with
`playing` still true, so it keeps contributing to subsequent samples. -/
theorem claim_C1_counterexample :
    isPlaying (stop envInit stOne) = false
    ∧ ((stop envInit stOne).tone_gen 0).playing = true := by
  exact ⟨rfl, by decide⟩

/-- Claim C1, amended: `stop()` (`tune_stopscore`) marks playback inactive
and calls `tune_stopnote` on every generator, which deactivates playing
percussion voices immediately but moves playing melodic voices into the
Release envelope phase with `playing` left true (they keep sounding until
the release ramp completes); idle voices are untouched.  Decoding a CMD_STOP
byte (0xF0) invokes exactly `stop()` and terminates decoding. -/
theorem claim_C1_amended :
    (∀ (env : Env) (st : PlaytuneState),
      isPlaying (stop env st) = false
      ∧ ∀ i, i < 16 →
          ((st.tone_gen i).playing = true → (st.tone_gen i).percussion = true →
              ((stop env st).tone_gen i).playing = false)
          ∧ ((st.tone_gen i).playing = true → (st.tone_gen i).percussion = false →
              ((stop env st).tone_gen i).playing = true
              ∧ ((stop env st).tone_gen i).env_state = EnvState.release
              ∧ ((stop env st).tone_gen i).env_count
                  = (env.instruments (st.tone_gen i).instrument_index).rel
              ∧ ((stop env st).tone_gen i).env_mult
                  = (env.instruments (st.tone_gen i).instrument_index).sustain_level
              ∧ ((stop env st).tone_gen i).env_incr
                  = Int.tdiv (-(env.instruments (st.tone_gen i).instrument_index).sustain_level)
                      (env.instruments (st.tone_gen i).instrument_index).rel)
          ∧ ((st.tone_gen i).playing = false → (stop env st).tone_gen i = st.tone_gen i))
  ∧ (∀ (env : Env) (st : PlaytuneState), env.score st.score_cursor = 0xF0 →
      tune_stepcmd env st
        = (stop env { st with score_cursor := st.score_cursor + 1 }, true)) := by
  constructor
  · intro env st
    refine ⟨rfl, fun i hi => ?_⟩
    rw [stop_tone_gen env st i hi]
    unfold stopnote_tg
    refine ⟨fun hp hperc => ?_, fun hp hperc => ?_, fun hp => ?_⟩
    · simp [hp, hperc]
    · simp [hp, hperc]
    · simp [hp]
  · intro env st h
    unfold tune_stepcmd
    rw [h]
    norm_num [show (240 : Nat) &&& 240 = 240 from rfl]

/-- Witness for the amended C1 at a state with one sustained melodic voice. -/
theorem claim_C1_amended_witness :
    (tgSus.playing = true ∧ tgSus.percussion = false ∧ (0 : Nat) < 16)
    ∧ isPlaying (stop envInit stOne) = false
    ∧ ((stop envInit stOne).tone_gen 0).playing = true
    ∧ ((stop envInit stOne).tone_gen 0).env_state = EnvState.release := by
  have h := (claim_C1_amended.1 envInit stOne).2 0 (by decide)
  have hm := h.2.1 (by decide) (by decide)
  exact ⟨⟨rfl, rfl, by decide⟩, (claim_C1_amended.1 envInit stOne).1, hm.1, hm.2.1⟩

/-- Claim C2 names a code bug: the accumulated mixer level is stored into the
signed 16-bit output slot by a plain C `int` → `int16_t` assignment
(`block->data[sample] = level`), which reduces modulo 2^16 — it does NOT
saturate, contradicting both the spec and the source comment
"clips at -32768..+32767".  With all 16 generators striking a full-scale
percussion table at maximum velocity, the accumulated level for the first
sample is 52416, and the emitted sample wraps to -13120 where saturation
would produce 32767. -/
theorem claim_C2_bug :
    (update_tgens envInit stLoud).2 = 52416
    ∧ (update_sample envInit 0 stLoud).2 = -13120
    ∧ clamp16 52416 = 32767 ∧ toInt16 52416 = -13120 := by
  exact ⟨by decide, by decide, by decide, by decide⟩

lemma setup_fold_eta (s1 : PlaytuneState) :
    (List.range 16).foldl (fun s t => tune_setinstrument t 13 s) s1
      = { s1 with
          tone_gen := ((List.range 16).foldl (fun s t => tune_setinstrument t 13 s) s1).tone_gen } := by
  have h : (fun (s : PlaytuneState) (t : Nat) => tune_setinstrument t 13 s)
      = overTG (fun _ tg => { tg with instrument_index := 13 }) := rfl
  rw [h, foldl_overTG_eta]

/-- Claim C3: `tune_playscore` accepts a header iff the first two stream
bytes are 'P','t' (80,116).  When accepted it sets velocity-presence from
bit 0x80 of the fourth byte, clamps the sixth byte into [1,16] as the
generator count, selects the mixer attenuation by that count, and starts the
cursor (and restart anchor) exactly `header_length` (third byte) past the
stream start; otherwise it uses the defaults (velocity absent, 16
generators) and starts at offset 0.  Decoding then begins there
(`tune_playscore` is the header setup followed by `tune_stepscore`), and
when velocity is present each note-on consumes cmd, note AND velocity bytes
(cursor advances by 3). -/
theorem claim_C3 :
    (∀ (env : Env) (st : PlaytuneState),
      env.score 0 = 80 → env.score 1 = 116 →
        (tune_playscore_setup env st).volume_present = (env.score 3 &&& 0x80 != 0)
        ∧ (tune_playscore_setup env st).num_tgens_used = max 1 (min 16 (env.score 5))
        ∧ (tune_playscore_setup env st).amplitude_fraction
            = mixer_amplitude_fractions (max 1 (min 16 (env.score 5)))
        ∧ (tune_playscore_setup env st).score_cursor = env.score 2
        ∧ (tune_playscore_setup env st).score_start = env.score 2)
  ∧ (∀ (env : Env) (st : PlaytuneState),
      ¬(env.score 0 = 80 ∧ env.score 1 = 116) →
        (tune_playscore_setup env st).volume_present = false
        ∧ (tune_playscore_setup env st).num_tgens_used = 16
        ∧ (tune_playscore_setup env st).amplitude_fraction = mixer_amplitude_fractions 16
        ∧ (tune_playscore_setup env st).score_cursor = 0
        ∧ (tune_playscore_setup env st).score_start = 0)
  ∧ (∀ (env : Env) (fuel : Nat) (st : PlaytuneState),
      tune_playscore env fuel st
        = { tune_stepscore env fuel (tune_playscore_setup env st) with tune_playing := true })
  ∧ (∀ (env : Env) (s : PlaytuneState),
      s.volume_present = true →
      144 ≤ env.score s.score_cursor → env.score s.score_cursor ≤ 159 →
        (tune_stepcmd env s).1.score_cursor = s.score_cursor + 3
        ∧ (tune_stepcmd env s).2 = false) := by
  refine ⟨?_, ?_, ?_, ?_⟩
  · intro env st h0 h1
    simp only [tune_playscore_setup]
    rw [setup_fold_eta]
    simp [h0, h1]
  · intro env st h
    simp only [tune_playscore_setup]
    rw [setup_fold_eta]
    simp [h]
  · intro env fuel st
    rfl
  · intro env s hv h1 h2
    have hop : env.score s.score_cursor &&& 0xf0 = 0x90 := by
      interval_cases h : env.score s.score_cursor <;> decide
    have hge : ¬ env.score s.score_cursor < 0x80 := by omega
    simp only [tune_stepcmd]
    rw [hop]
    simp only [hge, if_false]
    norm_num [tune_playnote_score_cursor, hv]

/-- Witness for C3 at the concrete header `'P','t',6,0x80,0,4`: exactly 4
generators are configured, velocity is flagged present, and decoding starts
6 bytes in. -/
theorem claim_C3_witness :
    (envPt.score 0 = 80 ∧ envPt.score 1 = 116)
    ∧ (tune_playscore_setup envPt stInit).volume_present = true
    ∧ (tune_playscore_setup envPt stInit).num_tgens_used = 4
    ∧ (tune_playscore_setup envPt stInit).amplitude_fraction = 26214
    ∧ (tune_playscore_setup envPt stInit).score_cursor = 6 := by
  have h := claim_C3.1 envPt stInit rfl rfl
  refine ⟨⟨rfl, rfl⟩, ?_, ?_, ?_, ?_⟩
  · rw [h.1]
    decide
  · rw [h.2.1]
    decide
  · rw [h.2.2.1]
    decide
  · rw [h.2.2.2.1]
    decide

/-- Counterexample to claim C4 as stated: for the shipped instruments
(sustain 39321, release 1323) the release ramp decrement is the truncated
quotient -29, so after exactly the configured 1323 release samples the
envelope multiplier is 954, not 0, and the voice is still active (it is
deactivated only by the next sample's envelope update). -/
theorem claim_C4_counterexample :
    (Nat.iterate (envStep (envInit.instruments 0)) 1323 (stopnote_tg envInit tgSus)).env_mult = 954
    ∧ ((954 : Int) = 0 → False)
    ∧ (Nat.iterate (envStep (envInit.instruments 0)) 1323 (stopnote_tg envInit tgSus)).playing
        = true := by
  have hiter := envStep_release_iter (envInit.instruments 0) 1323 (stopnote_tg envInit tgSus)
      (by decide) (by decide)
  rw [hiter]
  exact ⟨by decide, by decide, by decide⟩

/-- Claim C4, amended: `note_off` on an active melodic voice enters the
Release phase ramping from the instrument's sustain level by the truncated
per-sample decrement `-(sustain_level / release)`; the voice remains active
through all `release` release samples, after which the countdown is 0 and
the multiplier holds the truncation residue
`sustain_level + release * ((-sustain_level) / release)` (zero only when
`release` divides `sustain_level`); the envelope update of the following
sample then deactivates the voice. -/
theorem claim_C4_amended (env : Env) (tg : ToneGen) (R : Nat)
    (hp : tg.playing = true) (hperc : tg.percussion = false)
    (hR : (env.instruments tg.instrument_index).rel = (R : Int)) (_hRpos : 0 < R) :
    ((stopnote_tg env tg).env_state = EnvState.release
      ∧ (stopnote_tg env tg).playing = true
      ∧ (stopnote_tg env tg).env_count = (env.instruments tg.instrument_index).rel
      ∧ (stopnote_tg env tg).env_mult = (env.instruments tg.instrument_index).sustain_level
      ∧ (stopnote_tg env tg).env_incr
          = Int.tdiv (-(env.instruments tg.instrument_index).sustain_level)
              (env.instruments tg.instrument_index).rel)
  ∧ (∀ n : Nat, n ≤ R →
      (Nat.iterate (envStep (env.instruments tg.instrument_index)) n (stopnote_tg env tg)).playing
          = true
      ∧ (Nat.iterate (envStep (env.instruments tg.instrument_index)) n
            (stopnote_tg env tg)).env_count
          = (env.instruments tg.instrument_index).rel - n
      ∧ (Nat.iterate (envStep (env.instruments tg.instrument_index)) n
            (stopnote_tg env tg)).env_mult
          = (env.instruments tg.instrument_index).sustain_level
            + n * Int.tdiv (-(env.instruments tg.instrument_index).sustain_level)
                (env.instruments tg.instrument_index).rel)
  ∧ (Nat.iterate (envStep (env.instruments tg.instrument_index)) (R + 1)
        (stopnote_tg env tg)).playing = false := by
  have hfields :
      stopnote_tg env tg
        = { tg with env_state := EnvState.release,
                    env_count := (env.instruments tg.instrument_index).rel,
                    env_mult := (env.instruments tg.instrument_index).sustain_level,
                    env_incr := Int.tdiv (-(env.instruments tg.instrument_index).sustain_level)
                        (env.instruments tg.instrument_index).rel } := by
    unfold stopnote_tg
    simp [hp, hperc]
  have hiter : ∀ n : Nat, n ≤ R →
      Nat.iterate (envStep (env.instruments tg.instrument_index)) n (stopnote_tg env tg)
        = { stopnote_tg env tg with
            env_count := (env.instruments tg.instrument_index).rel - n,
            env_mult := (env.instruments tg.instrument_index).sustain_level
              + n * Int.tdiv (-(env.instruments tg.instrument_index).sustain_level)
                  (env.instruments tg.instrument_index).rel } := by
    intro n hn
    have h := envStep_release_iter (env.instruments tg.instrument_index) n (stopnote_tg env tg)
        (by rw [hfields]) (by rw [hfields]; simp only []; rw [hR]; exact_mod_cast Nat.cast_le.mpr hn)
    rw [h, hfields]
  refine ⟨?_, ?_, ?_⟩
  · rw [hfields]
    exact ⟨rfl, by simp only []; exact hp, rfl, rfl, rfl⟩
  · intro n hn
    rw [hiter n hn, hfields]
    exact ⟨hp, rfl, rfl⟩
  · rw [Function.iterate_succ_apply']
    have hdone := envStep_release_done (env.instruments tg.instrument_index)
        (Nat.iterate (envStep (env.instruments tg.instrument_index)) R (stopnote_tg env tg))
        (by rw [hiter R le_rfl, hfields]) ?_
    · exact hdone.1
    · rw [hiter R le_rfl]
      simp only []
      rw [hR]
      ring

/-- Witness for the amended C4 on the shipped instrument 0
(sustain 39321, release 1323): the residue after 1323 release samples is
954 and the 1324th update deactivates the voice. -/
theorem claim_C4_amended_witness :
    (tgSus.playing = true ∧ tgSus.percussion = false
      ∧ (envInit.instruments tgSus.instrument_index).rel = (1323 : Int) ∧ 0 < 1323)
    ∧ (Nat.iterate (envStep (envInit.instruments tgSus.instrument_index)) 1323
        (stopnote_tg envInit tgSus)).env_mult = 954
    ∧ (Nat.iterate (envStep (envInit.instruments tgSus.instrument_index)) 1324
        (stopnote_tg envInit tgSus)).playing = false := by
  have h := claim_C4_amended envInit tgSus 1323 rfl rfl (by decide) (by norm_num)
  refine ⟨⟨rfl, rfl, by decide, by norm_num⟩, ?_, h.2.2⟩
  have hm := (h.2.1 1323 le_rfl).2.2
  rw [hm]
  decide

lemma playnote_melodic_env_fields (env : Env) (tgen note vol : Nat)
    (st : PlaytuneState) (htgen : tgen < 16) (hnote : note < 128) :
    ((tune_playnote env tgen note vol st).tone_gen tgen).env_count
        = (env.instruments (st.tone_gen tgen).instrument_index).delay
    ∧ ((tune_playnote env tgen note vol st).tone_gen tgen).env_state = EnvState.delay
    ∧ ((tune_playnote env tgen note vol st).tone_gen tgen).env_mult = 0 := by
  unfold tune_playnote
  simp [htgen, Nat.not_le.mpr hnote, Function.update]

/-- Counterexample to claim C5 as stated: for an instrument whose delay,
attack, hold AND decay are all zero, the cascade correctly falls through to
Sustain within the first sample, so the envelope multiplier on the very
first rendered sample is the sustain level 39321, not the full-scale Hold
level 0x10000 — the claim's "delay = 0 and attack = 0 implies multiplier =
0x10000" is too strong. -/
theorem claim_C5_counterexample :
    instD.delay = 0 ∧ instD.attack = 0
    ∧ (envCascade instD 8 ((tune_playnote envD 0 60 127 stInit).tone_gen 0)).env_mult = 39321
    ∧ ((39321 : Int) = 0x10000 → False) := by
  exact ⟨rfl, rfl, by decide, by decide⟩

/-- Claim C5, amended: zero-length envelope phases cascade within the same
rendered sample.  If the voice's instrument has delay = 0 and attack = 0 and
at least one of hold, decay is nonzero, a freshly played melodic note is at
the full-scale Hold level 0x10000 on its very first rendered sample (the
multiplier `envCascade` leaves for that sample's scaling); its note-on
countdown starts at the (zero) delay.  (When hold and decay are also zero
the cascade continues to Sustain in that same sample.) -/
theorem claim_C5_amended (env : Env) (st : PlaytuneState) (tgen note vol : Nat)
    (htgen : tgen < 16) (hnote : note < 128)
    (hd : (env.instruments ((st.tone_gen tgen).instrument_index)).delay = 0)
    (ha : (env.instruments ((st.tone_gen tgen).instrument_index)).attack = 0)
    (hh : (env.instruments ((st.tone_gen tgen).instrument_index)).hold ≠ 0
        ∨ (env.instruments ((st.tone_gen tgen).instrument_index)).decay ≠ 0) :
    (envCascade (env.instruments ((st.tone_gen tgen).instrument_index)) 8
        ((tune_playnote env tgen note vol st).tone_gen tgen)).env_mult = 0x10000
    ∧ ((tune_playnote env tgen note vol st).tone_gen tgen).env_count = 0 := by
  obtain ⟨h1, h2, h3⟩ := playnote_melodic_env_fields env tgen note vol st htgen hnote
  constructor
  · by_cases hhold : (env.instruments ((st.tone_gen tgen).instrument_index)).hold = 0
    · have hdecay : (env.instruments ((st.tone_gen tgen).instrument_index)).decay ≠ 0 := by
        rcases hh with hh | hh
        · exact absurd hhold hh
        · exact hh
      simp [envCascade, h1, h2, hd, ha, hhold, hdecay]
    · simp [envCascade, h1, h2, hd, ha, hhold]
  · rw [h1, hd]

/-- Witness for the amended C5 on an instrument with delay = attack = 0 and
hold = 88: the very first rendered sample is at full scale. -/
theorem claim_C5_witness :
    (instZ.delay = 0 ∧ instZ.attack = 0 ∧ instZ.hold ≠ 0)
    ∧ (envCascade instZ 8 ((tune_playnote envZ 0 60 127 stInit).tone_gen 0)).env_mult
        = 0x10000 :=
  ⟨⟨rfl, rfl, by decide⟩,
    (claim_C5_amended envZ stInit 0 60 127 (by decide) (by decide) rfl rfl
      (Or.inl (by decide))).1⟩

/-- For a playing percussion voice, the state part of `tg_sample`: stop when
`index2` reaches the ending index, advance the phase, bump the envelope
multiplier. -/
lemma tg_sample_fst_perc (inst : Instrument) (a : Int) (tg : ToneGen)
    (hp : tg.playing = true) (hperc : tg.percussion = true) :
    (tg_sample inst a tg).1
      = { tg with
          playing := if tg.drum_ending_sample_index ≤ perc_index1 tg.tone_phase + 1 then false
                     else tg.playing,
          tone_phase := advance_phase tg.tone_phase tg.tone_incr,
          env_mult := tg.env_mult + tg.env_incr } := by
  simp [tg_sample, hp, hperc]

/-- Claim C6: per-sample waveform evaluation stays inside the tables.
(1) Melodic: with the phase in [0, 2^31) the first index is below 256
and the second is `(index1+1) mod 256`.  (2) The phase advance is masked
into [0, 2^31).  (3) Percussion: if the voice's current first index is
below the ending index (the table's last valid index), then this sample
reads only indices at most the ending index; whenever `index2` reaches the
ending index the voice is deactivated in that same sample; and if it stays
playing the index invariant and the 2^31 phase bound are preserved
(hypotheses: the per-sample increment is at most 2^17 and the ending index
is in [1, 16383], which hold for the shipped drum tables and rates).
(4) A percussion note-on starts the phase at 0, establishing the invariant. -/
theorem claim_C6 :
    (∀ p : Nat, p < 2147483648 →
      mel_index1 p < 256 ∧ mel_index2 (mel_index1 p) = (mel_index1 p + 1) % 256)
  ∧ (∀ p i : Nat, advance_phase p i < 2147483648)
  ∧ (∀ (inst : Instrument) (a : Int) (tg : ToneGen),
      tg.playing = true → tg.percussion = true →
      tg.tone_incr ≤ 131072 → 1 ≤ tg.drum_ending_sample_index →
      tg.drum_ending_sample_index ≤ 16383 →
      perc_index1 tg.tone_phase < tg.drum_ending_sample_index →
        (perc_index1 tg.tone_phase + 1 ≤ tg.drum_ending_sample_index)
        ∧ (tg.drum_ending_sample_index ≤ perc_index1 tg.tone_phase + 1 →
            ((tg_sample inst a tg).1).playing = false)
        ∧ (((tg_sample inst a tg).1).playing = true →
            perc_index1 ((tg_sample inst a tg).1).tone_phase
              < ((tg_sample inst a tg).1).drum_ending_sample_index
            ∧ ((tg_sample inst a tg).1).tone_phase < 2147483648))
  ∧ (∀ (env : Env) (st : PlaytuneState) (tgen note vol : Nat),
      tgen < 16 → 128 ≤ note →
      ((tune_playnote env tgen note vol st).tone_gen tgen).tone_phase = 0) := by
  refine ⟨?_, ?_, ?_, ?_⟩
  · intro p hp
    exact ⟨mel_index1_lt p hp, mel_index2_mod _⟩
  · intro p i
    exact advance_phase_lt p i
  · intro inst a tg hp hperc hincr hend1 hend2 hinv
    have hq : perc_index1 tg.tone_phase = tg.tone_phase / 131072 := by
      rw [perc_index1, Nat.shiftRight_eq_div_pow]
    refine ⟨by omega, ?_, ?_⟩
    · intro hcase
      rw [tg_sample_fst_perc inst a tg hp hperc]
      simp only [if_pos hcase]
    · intro hplay
      rw [tg_sample_fst_perc inst a tg hp hperc] at hplay ⊢
      simp only [] at hplay ⊢
      by_cases hcase : tg.drum_ending_sample_index ≤ perc_index1 tg.tone_phase + 1
      · rw [if_pos hcase] at hplay
        exact absurd hplay (by simp)
      · have hlt2 : perc_index1 tg.tone_phase + 1 < tg.drum_ending_sample_index := by omega
        have hmod := Nat.div_add_mod tg.tone_phase 131072
        have hrem : tg.tone_phase % 131072 < 131072 := Nat.mod_lt _ (by norm_num)
        have hsum : tg.tone_phase + tg.tone_incr
            < (tg.tone_phase / 131072 + 2) * 131072 := by
          rw [hq] at hlt2
          omega
        have hlt31 : tg.tone_phase + tg.tone_incr < 2147483648 := by
          rw [hq] at hlt2
          omega
        have hadv : advance_phase tg.tone_phase tg.tone_incr
            = tg.tone_phase + tg.tone_incr := by
          unfold advance_phase
          rw [show (0x7fffffff : Nat) = 2147483647 from rfl, land_mask31]
          exact Nat.mod_eq_of_lt hlt31
        have hdiv : (tg.tone_phase + tg.tone_incr) / 131072
            < tg.tone_phase / 131072 + 2 :=
          (Nat.div_lt_iff_lt_mul (by norm_num)).mpr hsum
        constructor
        · rw [hadv, perc_index1, Nat.shiftRight_eq_div_pow]
          norm_num
          rw [hq] at hlt2
          omega
        · rw [hadv]
          exact hlt31
  · intro env st tgen note vol htgen hnote
    unfold tune_playnote
    simp [htgen, hnote, Function.update]

/-- Witness for C6 at the top of the phase range (melodic) and at the
concrete percussion voice `tgLoud` (ending index 16383, increment 23768). -/
theorem claim_C6_witness :
    ((2147483647 : Nat) < 2147483648 ∧ mel_index1 2147483647 < 256)
    ∧ (tgLoud.playing = true ∧ tgLoud.percussion = true
        ∧ tgLoud.tone_incr ≤ 131072 ∧ 1 ≤ tgLoud.drum_ending_sample_index
        ∧ tgLoud.drum_ending_sample_index ≤ 16383
        ∧ perc_index1 tgLoud.tone_phase < tgLoud.drum_ending_sample_index)
    ∧ perc_index1 tgLoud.tone_phase + 1 ≤ tgLoud.drum_ending_sample_index
    ∧ (((tg_sample instD 0 tgLoud).1).playing = true →
        perc_index1 ((tg_sample instD 0 tgLoud).1).tone_phase
          < ((tg_sample instD 0 tgLoud).1).drum_ending_sample_index) := by
  have h := claim_C6.2.2.1 instD 0 tgLoud rfl rfl (by decide) (by decide) (by decide)
      (by decide)
  exact ⟨⟨by decide, (claim_C6.1 2147483647 (by decide)).1⟩,
    ⟨rfl, rfl, by decide, by decide, by decide, by decide⟩,
    h.1, fun hpl => (h.2.2 hpl).1⟩

/-- Claim C9: a wait command encoding 0 milliseconds (bytes 0x00 0x00) sets
`scorewait_samples` to 0 and halts decoding; and once playback is on with a
zero wait counter, the per-sample gate (which requires a nonzero counter to
step the score) never fires again: over any number of samples,
`tune_playing` stays true, the wait counter stays 0, the read cursor never
moves (no further score event is decoded), and any sustained voice keeps
sounding forever. -/
theorem claim_C9 :
    (∀ (env : Env) (st : PlaytuneState),
      env.score st.score_cursor = 0 → env.score (st.score_cursor + 1) = 0 →
      tune_stepcmd env st
        = ({ st with score_cursor := st.score_cursor + 2, scorewait_samples := 0 }, true))
  ∧ (∀ (env : Env) (fuel : Nat) (st : PlaytuneState) (n : Nat),
      st.tune_playing = true → st.scorewait_samples = 0 →
        (Nat.iterate (fun s => (update_sample env fuel s).1) n st).tune_playing = true
        ∧ (Nat.iterate (fun s => (update_sample env fuel s).1) n st).scorewait_samples = 0
        ∧ (Nat.iterate (fun s => (update_sample env fuel s).1) n st).score_cursor
            = st.score_cursor
        ∧ ∀ i, sustainInv (st.tone_gen i) →
            sustainInv ((Nat.iterate (fun s => (update_sample env fuel s).1) n st).tone_gen i)) := by
  constructor
  · intro env st h0 h1
    simp only [tune_stepcmd]
    simp [h0, h1]
  · intro env fuel st n hp hw
    induction n with
    | zero => exact ⟨hp, hw, rfl, fun i hi => hi⟩
    | succ n ih =>
      rw [Function.iterate_succ_apply']
      obtain ⟨ih1, ih2, ih3, ih4⟩ := ih
      have h := update_sample_step env fuel _ ih1 ih2
      exact ⟨h.1, h.2.1, h.2.2.1.trans ih3, fun i hi => h.2.2.2 i (ih4 i hi)⟩

/-- Witness for C9: the all-zero stream decodes a 0 ms wait, and from a
state with playback on, zero wait and one sustained voice, three samples
later the voice still sounds and the cursor has not moved. -/
theorem claim_C9_witness :
    (envInit.score stInit.score_cursor = 0 ∧ stOne.tune_playing = true
      ∧ stOne.scorewait_samples = 0 ∧ sustainInv (stOne.tone_gen 0))
    ∧ tune_stepcmd envInit stInit
        = ({ stInit with score_cursor := stInit.score_cursor + 2, scorewait_samples := 0 }, true)
    ∧ (Nat.iterate (fun s => (update_sample envInit 0 s).1) 3 stOne).tune_playing = true
    ∧ (Nat.iterate (fun s => (update_sample envInit 0 s).1) 3 stOne).score_cursor
        = stOne.score_cursor
    ∧ sustainInv ((Nat.iterate (fun s => (update_sample envInit 0 s).1) 3 stOne).tone_gen 0) := by
  have h := claim_C9.2 envInit 0 stOne 3 rfl rfl
  exact ⟨⟨rfl, rfl, rfl, by decide⟩, claim_C9.1 envInit stInit rfl rfl,
    h.1, h.2.2.1, h.2.2.2 0 (by decide)⟩

end Playtune
